import Mathlib

/-!
A shallow embedding of the epoch-orchestration core of `cifar.py`
(CIFAR-10/100 training script): the per-epoch train/test pass
(`run_epoch_pass`), milestone learning-rate decay
(`update_learning_rate`), checkpoint persistence (`save_checkpoint`),
the progress ledger, and the `main` training loop with its
`try/except KeyboardInterrupt/finally` structure.

Floating-point metric values are modelled as rationals; wall-clock
times, model outputs and loss values are abstract inputs supplied by
the external collaborators (dataset, model, criterion, optimizer),
which the source treats as opaque.
-/

namespace Cifar

/-- Modelled from the spec: `AverageMeter` (imported from `utils`, not
part of the source file). Spec §3 RunningAverage: `{sum, count}`,
`update(value, weight)` adds `value*weight` to `sum` and `weight` to
`count`; `average = sum/count` (zero when `count = 0`, which is the
rational-division convention here). -/
structure AverageMeter where
  sum : ℚ
  count : ℚ
deriving DecidableEq

/-- A fresh meter, as constructed at the start of each pass. -/
def AverageMeter.init : AverageMeter := ⟨0, 0⟩

/-- `update(val, n)`: `sum += val*n; count += n`. -/
def AverageMeter.update (m : AverageMeter) (val n : ℚ) : AverageMeter :=
  ⟨m.sum + val * n, m.count + n⟩

/-- `avg = sum / count` (0 when no updates occurred, by `ℚ` division). -/
def AverageMeter.avg (m : AverageMeter) : ℚ := m.sum / m.count

/-- The `mode` argument of `run_epoch_pass`: the source passes the
strings "Train" / "Test" and asserts no other value is used. -/
inductive Mode
  | Train
  | Test
deriving DecidableEq

/-- One `(inputs, targets)` batch from the dataloader, together with
the wall-clock durations the two `time()` measurements of the loop
body observe for it (data-loading time and total batch time), which
are environment inputs. `size` is `inputs.size(0)`, the number of
examples. Inputs and targets are abstract scalars: the model and
criterion are opaque collaborators. -/
structure Batch where
  input : ℚ
  target : ℚ
  size : ℚ
  dataTime : ℚ
  batchTime : ℚ
deriving DecidableEq

/-- The mutable state threaded through the batch loop of
`run_epoch_pass`: the model parameters (mutated in place by
`optimizer.step()` in the source) and the five `AverageMeter`s. -/
structure PassState (P : Type) where
  params : P
  batchTimeM : AverageMeter
  dataTimeM : AverageMeter
  losses : AverageMeter
  top1 : AverageMeter
  top5 : AverageMeter
deriving DecidableEq

/-- Fresh meters and the given parameters, as at the top of
`run_epoch_pass`. -/
def initPassState {P : Type} (p : P) : PassState P :=
  ⟨p, AverageMeter.init, AverageMeter.init, AverageMeter.init,
    AverageMeter.init, AverageMeter.init⟩

/-- One iteration of the batch loop of `run_epoch_pass`:
`data_time.update`; `outputs = model(inputs)`;
`loss = criterion(outputs, targets)`;
`prec1, prec5 = calculate_accuracy(...)`; update the loss/top1/top5
meters weighted by `inputs.size(0)`; if `mode == "Train"`:
`zero_grad`, `backward`, `optimizer.step()` (modelled as the opaque
parameter update `optStep`); `batch_time.update`.
`model : P → ℚ → ℚ` is the forward pass, `criterion : ℚ → ℚ → ℚ` the
loss, `accf : ℚ → ℚ → ℚ × ℚ` the `(prec1, prec5)` scorer, and
`optStep : P → Batch → P` the optimizer update — all opaque external
collaborators. -/
def processBatch {P : Type} (mode : Mode) (model : P → ℚ → ℚ)
    (criterion : ℚ → ℚ → ℚ) (accf : ℚ → ℚ → ℚ × ℚ)
    (optStep : P → Batch → P) (s : PassState P) (b : Batch) :
    PassState P :=
  let dataTimeM := s.dataTimeM.update b.dataTime 1
  let outputs := model s.params b.input
  let loss := criterion outputs b.target
  let pr := accf outputs b.target
  let losses := s.losses.update loss b.size
  let top1 := s.top1.update pr.1 b.size
  let top5 := s.top5.update pr.2 b.size
  let params := if mode = Mode.Train then optStep s.params b else s.params
  let batchTimeM := s.batchTimeM.update b.batchTime 1
  ⟨params, batchTimeM, dataTimeM, losses, top1, top5⟩

/-- The batch loop of `run_epoch_pass`, folding `processBatch` over
the dataloader's batches in iteration order. -/
def runEpochPassState {P : Type} (mode : Mode) (model : P → ℚ → ℚ)
    (criterion : ℚ → ℚ → ℚ) (accf : ℚ → ℚ → ℚ × ℚ)
    (optStep : P → Batch → P) (s : PassState P) :
    List Batch → PassState P
  | [] => s
  | b :: bs =>
      runEpochPassState mode model criterion accf optStep
        (processBatch mode model criterion accf optStep s b) bs

/-- `run_epoch_pass`: runs the batch loop from fresh meters and
returns `(losses.avg, top1.avg)` — the source's
`return (losses.avg, top1.avg)` — paired with the final model
parameters (the embedding of the source's in-place model mutation). -/
def run_epoch_pass {P : Type} (mode : Mode) (model : P → ℚ → ℚ)
    (criterion : ℚ → ℚ → ℚ) (accf : ℚ → ℚ → ℚ × ℚ)
    (optStep : P → Batch → P) (p : P) (bs : List Batch) :
    (ℚ × ℚ) × P :=
  let s := runEpochPassState mode model criterion accf optStep
    (initPassState p) bs
  ((s.losses.avg, s.top1.avg), s.params)

/-- The per-batch `(loss, prec1, size)` observations of a pass, with
the parameters threaded exactly as `processBatch` threads them. Used
to state what the running averages average over. -/
def passTrace {P : Type} (mode : Mode) (model : P → ℚ → ℚ)
    (criterion : ℚ → ℚ → ℚ) (accf : ℚ → ℚ → ℚ × ℚ)
    (optStep : P → Batch → P) (p : P) : List Batch → List (ℚ × ℚ × ℚ)
  | [] => []
  | b :: bs =>
      let outputs := model p b.input
      let loss := criterion outputs b.target
      let pr := accf outputs b.target
      (loss, pr.1, b.size) ::
        passTrace mode model criterion accf optStep
          (if mode = Mode.Train then optStep p b else p) bs

/-- Weighted sum of a list of `(value, weight)` pairs. -/
def wsum : List (ℚ × ℚ) → ℚ
  | [] => 0
  | e :: l => e.1 * e.2 + wsum l

/-- Total weight of a list of `(value, weight)` pairs. -/
def wtot : List (ℚ × ℚ) → ℚ
  | [] => 0
  | e :: l => e.2 + wtot l

/-- Weighted average of a list of `(value, weight)` pairs. -/
def wavg (l : List (ℚ × ℚ)) : ℚ := wsum l / wtot l

/-- `update_learning_rate(lr, schedule, gamma, optimizer, epoch)`:
if `epoch in schedule`, multiply `lr` by `gamma` and assign the new
`lr` to every `param_group["lr"]`; return the (possibly updated) `lr`
together with the optimizer's param-group rates (each param group is
modelled by its `"lr"` entry, the only field the source touches). -/
def update_learning_rate (lr : ℚ) (schedule : List ℕ) (gamma : ℚ)
    (paramGroups : List ℚ) (epoch : ℕ) : ℚ × List ℚ :=
  if epoch ∈ schedule then
    let lr := lr * gamma
    (lr, paramGroups.map fun _ => lr)
  else
    (lr, paramGroups)

/-- The tuple `(lr, train_loss, test_loss, train_acc, test_acc)` that
`scribe.append` receives each epoch — these five values and nothing
else. -/
structure Row where
  lr : ℚ
  trainLoss : ℚ
  testLoss : ℚ
  trainAcc : ℚ
  testAcc : ℚ
deriving DecidableEq

/-- The scalar content of the `state` dict passed to
`save_checkpoint`: `{"epoch": epoch+1, "acc": test_acc,
"best_acc": best_acc}`; the `state_dict`/`optimizer` blobs are opaque
to the orchestration core and omitted. -/
structure Checkpoint where
  epoch : ℕ
  acc : ℚ
  bestAcc : ℚ
deriving DecidableEq

/-- The two durable files `save_checkpoint` writes:
`checkpoint.pth.tar` (the latest slot, written every call) and
`model_best.pth.tar` (the best slot, written only when `is_best`). -/
structure CheckpointStore where
  latest : Option Checkpoint
  best : Option Checkpoint
deriving DecidableEq

/-- `save_checkpoint(state, is_best, ...)`: `torch.save` to the
latest slot unconditionally; if `is_best`, `shutil.copyfile` the same
payload to the best slot. -/
def save_checkpoint (state : Checkpoint) (is_best : Bool)
    (store : CheckpointStore) : CheckpointStore :=
  let store := { store with latest := some state }
  if is_best then { store with best := some state } else store

/-- How epoch `i`'s try-block terminates: both passes complete
(`ok`); a `KeyboardInterrupt` arrives during the train or the test
pass; or some other exception is raised inside the train or the test
pass (a batch-level compute failure). -/
inductive PassOutcome
  | ok
  | interruptTrain
  | interruptTest
  | failTrain
  | failTest
deriving DecidableEq

/-- The environment's behaviour at one epoch: how the passes
terminate, and the `(loss, acc)` pairs `train(...)` and `test(...)`
would return if they complete. The passes are opaque collaborators of
the orchestrator; their return values are environment inputs. -/
structure EpochData where
  outcome : PassOutcome
  trainRes : ℚ × ℚ
  testRes : ℚ × ℚ

/-- The orchestrator's mutable state across the epoch loop: `lr`,
`best_acc`, the optimizer's param-group rates, the scribe's ledger of
appended rows (the progress ledger is append-only per the spec; the
`Scribe` class itself lives in `utils`, outside the source file), the
two checkpoint slots, and the history of `save_checkpoint` calls
`(state, is_best)` in order (instrumentation recording each save the
loop performs). -/
structure LoopState where
  lr : ℚ
  bestAcc : ℚ
  paramGroups : List ℚ
  ledger : List Row
  store : CheckpointStore
  savedHistory : List (Checkpoint × Bool)
deriving DecidableEq

/-- The state at line 117-135 of `main`: `best_acc = 0`, fresh
scribe, `lr = args["lr"]`. -/
def initLoopState (lr : ℚ) (paramGroups : List ℚ) : LoopState :=
  ⟨lr, 0, paramGroups, [], ⟨none, none⟩, []⟩

/-- How one epoch-loop iteration ends: fall through to the next
iteration; `break` because `interrupted` was set by the
`except KeyboardInterrupt` handler; or propagate a non-KeyboardInterrupt
exception out of the loop (after the `finally` block has run). -/
inductive StepResult
  | advance
  | interruptedStop
  | raised
deriving DecidableEq

/-- One iteration of the `for epoch in range(...)` body of `main`:
initialize `train_loss, train_acc, test_loss, test_acc = 0, -1, 0, -1`;
try: `lr = update_learning_rate(...)`, run `train` then `test`,
overwriting the defaults for whichever assignments complete before
the try-block terminates; except KeyboardInterrupt: set `interrupted`;
finally (runs on every outcome, including a propagating exception):
`scribe.append((lr, train_loss, test_loss, train_acc, test_acc))`,
`is_best = test_acc > best_acc`, `best_acc = max(test_acc, best_acc)`,
`save_checkpoint({epoch+1, acc, best_acc}, is_best)`. -/
def epochBody (env : ℕ → EpochData) (schedule : List ℕ) (gamma : ℚ)
    (epoch : ℕ) (s : LoopState) : LoopState × StepResult :=
  let d := env epoch
  let lrG := update_learning_rate s.lr schedule gamma s.paramGroups epoch
  let v : ℚ × ℚ × ℚ × ℚ :=
    match d.outcome with
    | .ok => (d.trainRes.1, d.trainRes.2, d.testRes.1, d.testRes.2)
    | .interruptTrain => (0, -1, 0, -1)
    | .failTrain => (0, -1, 0, -1)
    | .interruptTest => (d.trainRes.1, d.trainRes.2, 0, -1)
    | .failTest => (d.trainRes.1, d.trainRes.2, 0, -1)
  let row : Row := ⟨lrG.1, v.1, v.2.2.1, v.2.1, v.2.2.2⟩
  let testAcc := v.2.2.2
  let isBest : Bool := decide (testAcc > s.bestAcc)
  let bestAcc := max testAcc s.bestAcc
  let ckpt : Checkpoint := ⟨epoch + 1, testAcc, bestAcc⟩
  let res : StepResult :=
    match d.outcome with
    | .ok => .advance
    | .interruptTrain => .interruptedStop
    | .interruptTest => .interruptedStop
    | .failTrain => .raised
    | .failTest => .raised
  (⟨lrG.1, bestAcc, lrG.2, s.ledger ++ [row],
      save_checkpoint ckpt isBest s.store,
      s.savedHistory ++ [(ckpt, isBest)]⟩, res)

/-- How the whole training loop ends: range exhausted (`Completed`),
`break` after a caught `KeyboardInterrupt` (`Interrupted`), or an
exception propagating out of epoch `e` (`Errored e`). -/
inductive RunResult
  | completed
  | interrupted
  | errored (epoch : ℕ)
deriving DecidableEq

/-- The `for epoch in range(start_epoch, args["epochs"])` loop of
`main`, over the list of epoch indices still to visit. -/
def runEpochs (env : ℕ → EpochData) (schedule : List ℕ) (gamma : ℚ) :
    List ℕ → LoopState → LoopState × RunResult
  | [], s => (s, .completed)
  | e :: rest, s =>
      let r := epochBody env schedule gamma e s
      match r.2 with
      | .advance => runEpochs env schedule gamma rest r.1
      | .interruptedStop => (r.1, .interrupted)
      | .raised => (r.1, .errored e)

/-- The train-mode epoch loop of `main`, from `start_epoch` to
`args["epochs"] - 1`. -/
def trainMain (env : ℕ → EpochData) (schedule : List ℕ) (gamma : ℚ)
    (startEpoch epochs : ℕ) (lr : ℚ) (paramGroups : List ℚ) :
    LoopState × RunResult :=
  runEpochs env schedule gamma
    (List.range' startEpoch (epochs - startEpoch))
    (initLoopState lr paramGroups)

/-- The number of epochs the loop enters, determined by the
environment alone: epochs are entered in order until (and including)
the first whose try-block does not complete. -/
def enteredCount (env : ℕ → EpochData) : List ℕ → ℕ
  | [] => 0
  | e :: rest =>
      match (env e).outcome with
      | .ok => 1 + enteredCount env rest
      | _ => 1

/-! Concrete collaborators and environments used to evaluate the
model on closed inputs. -/

/-- A model whose output is its input, ignoring the parameters. -/
def modelEval : ℚ → ℚ → ℚ := fun _ x => x

/-- A criterion returning the model output, ignoring the target. -/
def lossOut : ℚ → ℚ → ℚ := fun o _ => o

/-- A scorer returning `(output, target)` as `(prec1, prec5)`. -/
def accOutTarget : ℚ → ℚ → ℚ × ℚ := fun o t => (o, t)

/-- An optimizer step that leaves the parameters unchanged. -/
def stepNone : ℚ → Batch → ℚ := fun p _ => p

/-- A one-example batch with input 1 and target 5. -/
def batchA : Batch := ⟨1, 5, 1, 0, 0⟩

/-- A one-example batch with input 1 and target 7. -/
def batchB : Batch := ⟨1, 7, 1, 0, 0⟩

/-- An environment whose epochs all complete, except epoch 3, where a
`KeyboardInterrupt` arrives during the train pass. -/
def envOkThenInterrupt : ℕ → EpochData := fun e =>
  if e = 3 then ⟨.interruptTrain, (2, 3), (4, 5)⟩
  else ⟨.ok, (2, 3), (4, 5)⟩

/-- An environment whose first three epochs complete with test
accuracies 10, 20 and 15. -/
def envBestScenario : ℕ → EpochData := fun e =>
  ⟨.ok, (0, 0), (0, if e = 0 then 10 else if e = 1 then 20 else 15)⟩

/-- An environment where every epoch's train pass raises a
non-KeyboardInterrupt exception. -/
def envFailEpoch : ℕ → EpochData := fun _ => ⟨.failTrain, (0, 0), (0, 0)⟩

/-- An environment whose epochs all complete with the same metrics. -/
def envConstOk : ℕ → EpochData := fun _ => ⟨.ok, (2, 3), (4, 5)⟩

/-- An environment whose epochs complete with all metrics zero. -/
def envZero : ℕ → EpochData := fun _ => ⟨.ok, (0, 0), (0, 0)⟩

/-! Theorems. -/

/-- C7: `update_learning_rate` at a milestone epoch returns the
current rate multiplied by the decay factor and writes that identical
new rate to every optimizer param group; at any other epoch it
returns the rate unchanged and leaves the param groups untouched. -/
theorem c7_lr_step_contract (lr gamma : ℚ) (schedule : List ℕ)
    (g : List ℚ) (e : ℕ) :
    (e ∈ schedule →
      (update_learning_rate lr schedule gamma g e).1 = lr * gamma ∧
      (update_learning_rate lr schedule gamma g e).2.length = g.length ∧
      ∀ x ∈ (update_learning_rate lr schedule gamma g e).2,
        x = lr * gamma) ∧
    (e ∉ schedule →
      update_learning_rate lr schedule gamma g e = (lr, g)) := by
  constructor
  · intro h
    simp [update_learning_rate, h]
  · intro h
    simp [update_learning_rate, h]

/-- Witness for C7 at `lr = 1/10`, `schedule = [150, 225]`,
`gamma = 1/10`, two param groups: epoch 150 is a milestone (rate
becomes `1/100`, both groups updated); epoch 160 is not (everything
unchanged). -/
theorem c7_witness :
    (update_learning_rate (1/10) [150, 225] (1/10) [1/10, 1/10] 150).1
        = 1/10 * (1/10) ∧
    (∀ x ∈ (update_learning_rate (1/10) [150, 225] (1/10)
        [1/10, 1/10] 150).2, x = 1/10 * (1/10)) ∧
    update_learning_rate (1/10) [150, 225] (1/10) [1/10, 1/10] 160
        = (1/10, [1/10, 1/10]) :=
  ⟨((c7_lr_step_contract (1/10) (1/10) [150, 225] [1/10, 1/10] 150).1
      (by decide)).1,
   ((c7_lr_step_contract (1/10) (1/10) [150, 225] [1/10, 1/10] 150).1
      (by decide)).2.2,
   (c7_lr_step_contract (1/10) (1/10) [150, 225] [1/10, 1/10] 160).2
      (by decide)⟩

/-- C8 counterexample: at milestone epoch 150 with schedule
`[150, 225]`, decay `1/10` and rate `1/10`, a second call to
`update_learning_rate` with the same epoch returns `1/1000`, not the
first call's `1/100` — the step double-decays, refuting the claimed
idempotence. -/
theorem c8_counterexample_double_decay :
    (update_learning_rate
        (update_learning_rate (1/10) [150, 225] (1/10) [1/10] 150).1
        [150, 225] (1/10)
        (update_learning_rate (1/10) [150, 225] (1/10) [1/10] 150).2
        150).1 ≠
      (update_learning_rate (1/10) [150, 225] (1/10) [1/10] 150).1 := by
  have h : (150 : ℕ) ∈ [150, 225] := by decide
  simp [update_learning_rate, h]

/-- C8 amended: the learning-rate step is idempotent only at
non-milestone epochs — there a second call with the same epoch
returns the same (unchanged) rate; at a milestone epoch every call
multiplies by the decay factor, so a second call returns the first
call's rate times the decay factor (a double decay). -/
theorem c8_amended_idempotent_only_off_milestones (lr gamma : ℚ)
    (schedule : List ℕ) (g : List ℚ) (e : ℕ) :
    (e ∉ schedule →
      update_learning_rate
          (update_learning_rate lr schedule gamma g e).1
          schedule gamma
          (update_learning_rate lr schedule gamma g e).2 e =
        update_learning_rate lr schedule gamma g e) ∧
    (e ∈ schedule →
      (update_learning_rate
          (update_learning_rate lr schedule gamma g e).1
          schedule gamma
          (update_learning_rate lr schedule gamma g e).2 e).1 =
        (update_learning_rate lr schedule gamma g e).1 * gamma) := by
  constructor
  · intro h
    simp [update_learning_rate, h]
  · intro h
    simp [update_learning_rate, h]

/-- Witness for the amended C8: at non-milestone epoch 10 the second
call returns what the first one did; at milestone 150 the second call
multiplies the first result by the decay factor again. -/
theorem c8_amended_witness :
    update_learning_rate
        (update_learning_rate (1/10) [150, 225] (1/10) [1/10] 10).1
        [150, 225] (1/10)
        (update_learning_rate (1/10) [150, 225] (1/10) [1/10] 10).2
        10 =
      update_learning_rate (1/10) [150, 225] (1/10) [1/10] 10 ∧
    (update_learning_rate
        (update_learning_rate (1/10) [150, 225] (1/10) [1/10] 150).1
        [150, 225] (1/10)
        (update_learning_rate (1/10) [150, 225] (1/10) [1/10] 150).2
        150).1 =
      (update_learning_rate (1/10) [150, 225] (1/10) [1/10] 150).1
        * (1/10) :=
  ⟨(c8_amended_idempotent_only_off_milestones (1/10) (1/10) [150, 225]
      [1/10] 10).1 (by decide),
   (c8_amended_idempotent_only_off_milestones (1/10) (1/10) [150, 225]
      [1/10] 150).2 (by decide)⟩

/-! Helper lemmas about the epoch loop. -/

/-- The loop-control component of one epoch body, by the try-block
outcome. -/
theorem epochBody_snd (env : ℕ → EpochData) (schedule : List ℕ)
    (gamma : ℚ) (e : ℕ) (s : LoopState) :
    (epochBody env schedule gamma e s).2 =
      match (env e).outcome with
      | .ok => .advance
      | .interruptTrain => .interruptedStop
      | .interruptTest => .interruptedStop
      | .failTrain => .raised
      | .failTest => .raised := rfl

/-- Every epoch body appends exactly one ledger row. -/
theorem epochBody_ledger_length (env : ℕ → EpochData)
    (schedule : List ℕ) (gamma : ℚ) (e : ℕ) (s : LoopState) :
    (epochBody env schedule gamma e s).1.ledger.length =
      s.ledger.length + 1 := by
  simp [epochBody]

/-- Every epoch body performs exactly one checkpoint save. -/
theorem epochBody_savedHistory_length (env : ℕ → EpochData)
    (schedule : List ℕ) (gamma : ℚ) (e : ℕ) (s : LoopState) :
    (epochBody env schedule gamma e s).1.savedHistory.length =
      s.savedHistory.length + 1 := by
  simp [epochBody]

/-- The epoch recorded by the save of epoch `e` is `e + 1`. -/
theorem epochBody_savedHistory_epochs (env : ℕ → EpochData)
    (schedule : List ℕ) (gamma : ℚ) (e : ℕ) (s : LoopState) :
    ((epochBody env schedule gamma e s).1.savedHistory.map
        fun c => c.1.epoch) =
      (s.savedHistory.map fun c => c.1.epoch) ++ [e + 1] := by
  simp [epochBody]

/-- The ledger row appended by an epoch whose train pass was hit by
`KeyboardInterrupt`: all four metrics hold their initialized
defaults `0, -1, 0, -1`. -/
theorem epochBody_ledger_interruptTrain (env : ℕ → EpochData)
    (schedule : List ℕ) (gamma : ℚ) (e : ℕ) (s : LoopState)
    (h : (env e).outcome = .interruptTrain) :
    (epochBody env schedule gamma e s).1.ledger =
      s.ledger ++
        [⟨(update_learning_rate s.lr schedule gamma s.paramGroups e).1,
            0, 0, -1, -1⟩] := by
  simp [epochBody, h]

/-- Unfolding one loop iteration. -/
theorem runEpochs_cons (env : ℕ → EpochData) (schedule : List ℕ)
    (gamma : ℚ) (e : ℕ) (rest : List ℕ) (s : LoopState) :
    runEpochs env schedule gamma (e :: rest) s =
      match (epochBody env schedule gamma e s).2 with
      | .advance =>
          runEpochs env schedule gamma rest
            (epochBody env schedule gamma e s).1
      | .interruptedStop =>
          ((epochBody env schedule gamma e s).1, .interrupted)
      | .raised =>
          ((epochBody env schedule gamma e s).1, .errored e) := rfl

/-- An epoch whose passes complete falls through to the rest of the
loop. -/
theorem runEpochs_cons_ok {env : ℕ → EpochData} {e : ℕ}
    (schedule : List ℕ) (gamma : ℚ) (rest : List ℕ) (s : LoopState)
    (h : (env e).outcome = .ok) :
    runEpochs env schedule gamma (e :: rest) s =
      runEpochs env schedule gamma rest
        (epochBody env schedule gamma e s).1 := by
  rw [runEpochs_cons, epochBody_snd, h]

/-- An epoch interrupted during its train pass halts the loop with
the `Interrupted` result. -/
theorem runEpochs_cons_interruptTrain {env : ℕ → EpochData} {e : ℕ}
    (schedule : List ℕ) (gamma : ℚ) (rest : List ℕ) (s : LoopState)
    (h : (env e).outcome = .interruptTrain) :
    runEpochs env schedule gamma (e :: rest) s =
      ((epochBody env schedule gamma e s).1, .interrupted) := by
  rw [runEpochs_cons, epochBody_snd, h]

/-- An epoch whose train or test pass raises a non-KeyboardInterrupt
exception ends the run with the `Errored` result — after its epoch
body (including the `finally` block) has executed. -/
theorem runEpochs_cons_raised {env : ℕ → EpochData} {e : ℕ}
    (schedule : List ℕ) (gamma : ℚ) (rest : List ℕ) (s : LoopState)
    (h : (env e).outcome = .failTrain ∨ (env e).outcome = .failTest) :
    runEpochs env schedule gamma (e :: rest) s =
      ((epochBody env schedule gamma e s).1, .errored e) := by
  rcases h with h | h <;> rw [runEpochs_cons, epochBody_snd, h]

/-- C1: every epoch the loop enters performs exactly one ledger
append and exactly one checkpoint save — per epoch body, and in
aggregate over any run: the ledger and the save history each grow by
exactly the number of epochs entered (`enteredCount`), whether the
run completes, is interrupted, or aborts on an error. -/
theorem c1_one_append_one_save_per_epoch :
    (∀ (env : ℕ → EpochData) (schedule : List ℕ) (gamma : ℚ) (e : ℕ)
        (s : LoopState),
      (epochBody env schedule gamma e s).1.ledger.length =
          s.ledger.length + 1 ∧
      (epochBody env schedule gamma e s).1.savedHistory.length =
          s.savedHistory.length + 1) ∧
    (∀ (env : ℕ → EpochData) (schedule : List ℕ) (gamma : ℚ)
        (es : List ℕ) (s : LoopState),
      (runEpochs env schedule gamma es s).1.ledger.length =
          s.ledger.length + enteredCount env es ∧
      (runEpochs env schedule gamma es s).1.savedHistory.length =
          s.savedHistory.length + enteredCount env es) := by
  refine ⟨fun env schedule gamma e s =>
    ⟨epochBody_ledger_length env schedule gamma e s,
     epochBody_savedHistory_length env schedule gamma e s⟩,
    fun env schedule gamma es => ?_⟩
  induction es with
  | nil => intro s; simp [runEpochs, enteredCount]
  | cons e rest ih =>
    intro s
    cases h : (env e).outcome
    case ok =>
      rw [runEpochs_cons_ok schedule gamma rest s h]
      obtain ⟨ih1, ih2⟩ := ih (epochBody env schedule gamma e s).1
      rw [ih1, ih2, epochBody_ledger_length,
        epochBody_savedHistory_length]
      simp [enteredCount, h]
      omega
    case interruptTrain =>
      rw [runEpochs_cons, epochBody_snd, h]
      simp [enteredCount, h, epochBody_ledger_length,
        epochBody_savedHistory_length]
    case interruptTest =>
      rw [runEpochs_cons, epochBody_snd, h]
      simp [enteredCount, h, epochBody_ledger_length,
        epochBody_savedHistory_length]
    case failTrain =>
      rw [runEpochs_cons, epochBody_snd, h]
      simp [enteredCount, h, epochBody_ledger_length,
        epochBody_savedHistory_length]
    case failTest =>
      rw [runEpochs_cons, epochBody_snd, h]
      simp [enteredCount, h, epochBody_ledger_length,
        epochBody_savedHistory_length]

/-- C2 counterexample: when epoch 0's train pass raises a
non-KeyboardInterrupt exception, the run does abort with the error —
but the `finally` block has already run, so one ledger append and one
checkpoint save ARE performed for the failing epoch. This refutes the
claim that no checkpoint save and no ledger append happen for a
failing epoch. -/
theorem c2_counterexample_finally_still_saves :
    (runEpochs envFailEpoch [] 1 [0] (initLoopState 1 [1])).2 =
        .errored 0 ∧
    (runEpochs envFailEpoch [] 1 [0]
        (initLoopState 1 [1])).1.ledger.length ≠ 0 ∧
    (runEpochs envFailEpoch [] 1 [0]
        (initLoopState 1 [1])).1.savedHistory.length ≠ 0 := by
  norm_num [runEpochs, epochBody, envFailEpoch, initLoopState,
    update_learning_rate, save_checkpoint]

/-- C2 amended: a batch-level compute failure (any exception other
than KeyboardInterrupt) during an epoch's train or evaluate pass
propagates out of the epoch loop, aborting the run without entering
any later epoch — but, because the per-epoch `finally` block runs on
every exit, exactly one ledger append and one checkpoint save are
still performed for the failing epoch (with sentinel values for the
metrics the failed pass did not produce). -/
theorem c2_amended_error_propagates_after_save (env : ℕ → EpochData)
    (schedule : List ℕ) (gamma : ℚ) (e : ℕ) (rest : List ℕ)
    (s : LoopState)
    (h : (env e).outcome = .failTrain ∨ (env e).outcome = .failTest) :
    runEpochs env schedule gamma (e :: rest) s =
      ((epochBody env schedule gamma e s).1, .errored e) ∧
    (epochBody env schedule gamma e s).1.ledger.length =
      s.ledger.length + 1 ∧
    (epochBody env schedule gamma e s).1.savedHistory.length =
      s.savedHistory.length + 1 :=
  ⟨runEpochs_cons_raised schedule gamma rest s h,
   epochBody_ledger_length env schedule gamma e s,
   epochBody_savedHistory_length env schedule gamma e s⟩

/-- Witness for the amended C2, at the failing environment, epoch 0,
from the initial loop state. -/
theorem c2_amended_witness :
    runEpochs envFailEpoch [] 1 [0] (initLoopState 1 [1]) =
      ((epochBody envFailEpoch [] 1 0 (initLoopState 1 [1])).1,
        .errored 0) ∧
    (epochBody envFailEpoch [] 1 0
        (initLoopState 1 [1])).1.ledger.length =
      (initLoopState 1 [1]).ledger.length + 1 ∧
    (epochBody envFailEpoch [] 1 0
        (initLoopState 1 [1])).1.savedHistory.length =
      (initLoopState 1 [1]).savedHistory.length + 1 :=
  c2_amended_error_propagates_after_save envFailEpoch [] 1 0 []
    (initLoopState 1 [1]) (Or.inl rfl)

/-- C3: with `start_epoch = 0` and `epochs = 10`, if epochs 0–2
complete and a KeyboardInterrupt arrives during epoch 3's train pass,
the loop halts with the `Interrupted` result, exactly 4 checkpoint
saves occur (recording epochs 1, 2, 3, 4 — the source stores
`epoch + 1`), and the ledger row appended for epoch 3 carries the
sentinel test accuracy `-1`. -/
theorem c3_interrupt_at_epoch3_saves_four (env : ℕ → EpochData)
    (schedule : List ℕ) (gamma lr : ℚ) (g : List ℚ)
    (h0 : ∀ e, e < 3 → (env e).outcome = .ok)
    (h3 : (env 3).outcome = .interruptTrain) :
    (trainMain env schedule gamma 0 10 lr g).2 = .interrupted ∧
    (trainMain env schedule gamma 0 10 lr g).1.savedHistory.length
        = 4 ∧
    ((trainMain env schedule gamma 0 10 lr g).1.savedHistory.map
        fun c => c.1.epoch) = [1, 2, 3, 4] ∧
    ((trainMain env schedule gamma 0 10 lr g).1.ledger.get? 3).map
        Row.testAcc = some (-1) := by
  have e0 := h0 0 (by norm_num)
  have e1 := h0 1 (by norm_num)
  have e2 := h0 2 (by norm_num)
  have hr : List.range' 0 (10 - 0) = [0, 1, 2, 3, 4, 5, 6, 7, 8, 9] :=
    rfl
  unfold trainMain
  rw [hr, runEpochs_cons_ok _ _ _ _ e0, runEpochs_cons_ok _ _ _ _ e1,
    runEpochs_cons_ok _ _ _ _ e2,
    runEpochs_cons_interruptTrain _ _ _ _ h3]
  refine ⟨rfl, ?_, ?_, ?_⟩
  · simp [epochBody_savedHistory_length, initLoopState]
  · simp [epochBody_savedHistory_epochs, initLoopState]
  · rw [epochBody_ledger_interruptTrain _ _ _ _ _ h3]
    have hlen :
        ((epochBody env schedule gamma 2
          (epochBody env schedule gamma 1
            (epochBody env schedule gamma 0
              (initLoopState lr g)).1).1).1).ledger.length = 3 := by
      simp [epochBody_ledger_length, initLoopState]
    rw [← hlen]
    simp

/-- Witness for C3, at the environment that completes epochs other
than 3 and interrupts epoch 3's train pass. -/
theorem c3_witness :
    (trainMain envOkThenInterrupt [] 1 0 10 1 [1]).2 = .interrupted ∧
    (trainMain envOkThenInterrupt [] 1 0 10 1 [1]).1.savedHistory.length
        = 4 ∧
    ((trainMain envOkThenInterrupt [] 1 0 10 1 [1]).1.savedHistory.map
        fun c => c.1.epoch) = [1, 2, 3, 4] ∧
    ((trainMain envOkThenInterrupt [] 1 0 10 1 [1]).1.ledger.get? 3).map
        Row.testAcc = some (-1) :=
  c3_interrupt_at_epoch3_saves_four envOkThenInterrupt [] 1 1 [1]
    (by decide) (by decide)

/-- Every epoch body appends its one ledger row at the end, leaving
the prior rows untouched. -/
theorem epochBody_ledger_shape (env : ℕ → EpochData)
    (schedule : List ℕ) (gamma : ℚ) (e : ℕ) (s : LoopState) :
    ∃ r, (epochBody env schedule gamma e s).1.ledger = s.ledger ++ [r] :=
  ⟨_, rfl⟩

/-- `best_acc = max(test_acc, best_acc)` never decreases the running
best metric. -/
theorem epochBody_bestAcc_mono (env : ℕ → EpochData)
    (schedule : List ℕ) (gamma : ℚ) (e : ℕ) (s : LoopState) :
    s.bestAcc ≤ (epochBody env schedule gamma e s).1.bestAcc := by
  simp only [epochBody]
  exact le_max_right _ _

/-- The running best metric stays non-negative across any run of the
epoch loop. -/
theorem runEpochs_bestAcc_nonneg (env : ℕ → EpochData)
    (schedule : List ℕ) (gamma : ℚ) (es : List ℕ) :
    ∀ s : LoopState, 0 ≤ s.bestAcc →
      0 ≤ (runEpochs env schedule gamma es s).1.bestAcc := by
  induction es with
  | nil => intro s hs; simpa [runEpochs] using hs
  | cons e rest ih =>
    intro s hs
    have hm := epochBody_bestAcc_mono env schedule gamma e s
    cases h : (env e).outcome
    case ok =>
      rw [runEpochs_cons_ok _ _ _ _ h]
      exact ih _ (le_trans hs hm)
    case interruptTrain =>
      rw [runEpochs_cons, epochBody_snd, h]
      exact le_trans hs hm
    case interruptTest =>
      rw [runEpochs_cons, epochBody_snd, h]
      exact le_trans hs hm
    case failTrain =>
      rw [runEpochs_cons, epochBody_snd, h]
      exact le_trans hs hm
    case failTest =>
      rw [runEpochs_cons, epochBody_snd, h]
      exact le_trans hs hm

/-- An epoch whose test pass did not complete carries the sentinel
`test_acc = -1`; with a non-negative running best, its save is not
marked best and the best slot is untouched. -/
theorem epochBody_sentinel_not_best (env : ℕ → EpochData)
    (schedule : List ℕ) (gamma : ℚ) (e : ℕ) (s : LoopState)
    (hb : 0 ≤ s.bestAcc) (h : (env e).outcome ≠ .ok) :
    (epochBody env schedule gamma e s).1.store.best = s.store.best ∧
    (epochBody env schedule gamma e s).1.savedHistory.map Prod.snd =
      s.savedHistory.map Prod.snd ++ [false] := by
  have hn : ¬((-1 : ℚ) > s.bestAcc) := by
    intro hc
    linarith
  cases ho : (env e).outcome
  case ok => exact absurd ho h
  case interruptTrain =>
    constructor <;> simp [epochBody, save_checkpoint, ho, hn]
  case interruptTest =>
    constructor <;> simp [epochBody, save_checkpoint, ho, hn]
  case failTrain =>
    constructor <;> simp [epochBody, save_checkpoint, ho, hn]
  case failTest =>
    constructor <;> simp [epochBody, save_checkpoint, ho, hn]

/-- C6: the best-checkpoint decision is strict: a completed epoch's
save carries `is_best = (test_acc > best_acc_so_far)` (strict
inequality), a tie leaves the best slot untouched, and after epochs
with test accuracies 10, 20, 15 the best slot holds the checkpoint
with metric 20 while the latest slot holds metric 15. -/
theorem c6_best_strict_inequality :
    (∀ (env : ℕ → EpochData) (schedule : List ℕ) (gamma : ℚ) (e : ℕ)
        (s : LoopState),
      (env e).outcome = .ok →
        (epochBody env schedule gamma e s).1.savedHistory.getLast? =
          some (⟨e + 1, (env e).testRes.2,
              max ((env e).testRes.2) s.bestAcc⟩,
            decide ((env e).testRes.2 > s.bestAcc))) ∧
    (∀ (env : ℕ → EpochData) (schedule : List ℕ) (gamma : ℚ) (e : ℕ)
        (s : LoopState),
      (env e).outcome = .ok → (env e).testRes.2 = s.bestAcc →
        (epochBody env schedule gamma e s).1.store.best =
          s.store.best) ∧
    ((runEpochs envBestScenario [] 1 [0, 1, 2]
        (initLoopState 1 [1])).1.store.best).map Checkpoint.acc =
      some 20 ∧
    ((runEpochs envBestScenario [] 1 [0, 1, 2]
        (initLoopState 1 [1])).1.store.latest).map Checkpoint.acc =
      some 15 := by
  refine ⟨fun env schedule gamma e s h => by simp [epochBody, h],
    fun env schedule gamma e s h h2 => by
      simp [epochBody, save_checkpoint, h, h2],
    ?_, ?_⟩ <;>
    norm_num [runEpochs, epochBody, envBestScenario, initLoopState,
      update_learning_rate, save_checkpoint]

/-- Witness for C6: at an epoch whose test accuracy ties the running
best (both 0), the best slot is unchanged. -/
theorem c6_witness :
    (epochBody envZero [] 1 0 (initLoopState 1 [1])).1.store.best =
      (initLoopState 1 [1]).store.best :=
  c6_best_strict_inequality.2.1 envZero [] 1 0 (initLoopState 1 [1])
    rfl rfl

/-- C9 counterexample: two different epochs (0 and 1) with identical
learning rate and metrics append identical ledger rows, so a row
cannot contain the epoch number — `scribe.append` receives only the
five values `(lr, train_loss, test_loss, train_acc, test_acc)`. -/
theorem c9_counterexample_no_epoch_column :
    (runEpochs envConstOk [] 1 [0, 1]
        (initLoopState 1 [1])).1.ledger.get? 0 =
      (runEpochs envConstOk [] 1 [0, 1]
        (initLoopState 1 [1])).1.ledger.get? 1 ∧
    (runEpochs envConstOk [] 1 [0, 1]
        (initLoopState 1 [1])).1.ledger.get? 0 =
      some ⟨1, 2, 4, 3, 5⟩ := by
  norm_num [runEpochs, epochBody, envConstOk, initLoopState,
    update_learning_rate, save_checkpoint]

/-- C9 amended: exactly one row is appended to the progress log per
epoch entered, in epoch order, and the ledger is append-only (prior
rows are preserved); each row holds the learning rate, train loss,
test loss, train accuracy, and test accuracy — but not the epoch
number. -/
theorem c9_amended_one_row_per_epoch :
    (∀ (env : ℕ → EpochData) (schedule : List ℕ) (gamma : ℚ) (e : ℕ)
        (s : LoopState),
      (env e).outcome = .ok →
        (epochBody env schedule gamma e s).1.ledger =
          s.ledger ++
            [⟨(update_learning_rate s.lr schedule gamma
                  s.paramGroups e).1,
              (env e).trainRes.1, (env e).testRes.1,
              (env e).trainRes.2, (env e).testRes.2⟩]) ∧
    (∀ (env : ℕ → EpochData) (schedule : List ℕ) (gamma : ℚ)
        (es : List ℕ) (s : LoopState),
      ∃ t, (runEpochs env schedule gamma es s).1.ledger =
          s.ledger ++ t ∧
        t.length = enteredCount env es) := by
  refine ⟨fun env schedule gamma e s h => by simp [epochBody, h],
    fun env schedule gamma es => ?_⟩
  induction es with
  | nil =>
    intro s
    exact ⟨[], by simp [runEpochs], by simp [enteredCount]⟩
  | cons e rest ih =>
    intro s
    obtain ⟨r, hr⟩ := epochBody_ledger_shape env schedule gamma e s
    cases h : (env e).outcome
    case ok =>
      obtain ⟨t, ht, hlen⟩ := ih (epochBody env schedule gamma e s).1
      refine ⟨r :: t, ?_, ?_⟩
      · rw [runEpochs_cons_ok _ _ _ _ h, ht, hr]
        simp
      · simp [enteredCount, h, hlen]
        omega
    case interruptTrain =>
      exact ⟨[r], by rw [runEpochs_cons, epochBody_snd, h, hr],
        by simp [enteredCount, h]⟩
    case interruptTest =>
      exact ⟨[r], by rw [runEpochs_cons, epochBody_snd, h, hr],
        by simp [enteredCount, h]⟩
    case failTrain =>
      exact ⟨[r], by rw [runEpochs_cons, epochBody_snd, h, hr],
        by simp [enteredCount, h]⟩
    case failTest =>
      exact ⟨[r], by rw [runEpochs_cons, epochBody_snd, h, hr],
        by simp [enteredCount, h]⟩

/-- Witness for the amended C9: the row appended for a completed
epoch 0. -/
theorem c9_amended_witness :
    (epochBody envConstOk [] 1 0 (initLoopState 1 [1])).1.ledger =
      (initLoopState 1 [1]).ledger ++
        [⟨(update_learning_rate (initLoopState 1 [1]).lr [] 1
              (initLoopState 1 [1]).paramGroups 0).1,
          (envConstOk 0).trainRes.1, (envConstOk 0).testRes.1,
          (envConstOk 0).trainRes.2, (envConstOk 0).testRes.2⟩] :=
  c9_amended_one_row_per_epoch.1 envConstOk [] 1 0
    (initLoopState 1 [1]) rfl

/-- C10: the running best metric starts at 0, never decreases within
an epoch, and stays non-negative across any run; consequently an
epoch whose evaluate pass did not complete — whose test accuracy is
the sentinel `-1` — is never marked `is_best` and never overwrites
the best-model slot. -/
theorem c10_best_acc_nonneg_sentinel_never_best :
    (∀ (lr : ℚ) (g : List ℚ), (initLoopState lr g).bestAcc = 0) ∧
    (∀ (env : ℕ → EpochData) (schedule : List ℕ) (gamma : ℚ) (e : ℕ)
        (s : LoopState),
      s.bestAcc ≤ (epochBody env schedule gamma e s).1.bestAcc) ∧
    (∀ (env : ℕ → EpochData) (schedule : List ℕ) (gamma : ℚ)
        (es : List ℕ) (s : LoopState),
      0 ≤ s.bestAcc →
        0 ≤ (runEpochs env schedule gamma es s).1.bestAcc) ∧
    (∀ (env : ℕ → EpochData) (schedule : List ℕ) (gamma : ℚ) (e : ℕ)
        (s : LoopState),
      0 ≤ s.bestAcc → (env e).outcome ≠ .ok →
        (epochBody env schedule gamma e s).1.store.best =
          s.store.best ∧
        (epochBody env schedule gamma e s).1.savedHistory.map
            Prod.snd =
          s.savedHistory.map Prod.snd ++ [false]) :=
  ⟨fun _ _ => rfl,
   fun env schedule gamma e s =>
     epochBody_bestAcc_mono env schedule gamma e s,
   fun env schedule gamma es s =>
     runEpochs_bestAcc_nonneg env schedule gamma es s,
   fun env schedule gamma e s hb h =>
     epochBody_sentinel_not_best env schedule gamma e s hb h⟩

/-- Witness for C10: the epoch-3 interruption from the initial state
does not mark its save best and leaves the best slot empty. -/
theorem c10_witness :
    (epochBody envOkThenInterrupt [] 1 3
        (initLoopState 1 [1])).1.store.best =
      (initLoopState 1 [1]).store.best ∧
    (epochBody envOkThenInterrupt [] 1 3
        (initLoopState 1 [1])).1.savedHistory.map Prod.snd =
      (initLoopState 1 [1]).savedHistory.map Prod.snd ++ [false] :=
  c10_best_acc_nonneg_sentinel_never_best.2.2.2 envOkThenInterrupt
    [] 1 3 (initLoopState 1 [1]) (le_refl 0) (by decide)

/-! Helper lemmas about the epoch pass. -/

/-- In Test mode no batch ever applies the optimizer step: the model
parameters after the pass are those before it. -/
theorem runEpochPassState_test_params {P : Type} (model : P → ℚ → ℚ)
    (criterion : ℚ → ℚ → ℚ) (accf : ℚ → ℚ → ℚ × ℚ)
    (optStep : P → Batch → P) (bs : List Batch) :
    ∀ s : PassState P,
      (runEpochPassState Mode.Test model criterion accf optStep
        s bs).params = s.params := by
  induction bs with
  | nil => intro s; simp [runEpochPassState]
  | cons b bs ih =>
    intro s
    rw [runEpochPassState, ih]
    simp [processBatch]

/-- The loss and top-1 meters at the end of a pass hold exactly the
weighted sums (and total weights) of the pass's per-batch
observations. -/
theorem runEpochPassState_sums {P : Type} (mode : Mode)
    (model : P → ℚ → ℚ) (criterion : ℚ → ℚ → ℚ)
    (accf : ℚ → ℚ → ℚ × ℚ) (optStep : P → Batch → P)
    (bs : List Batch) :
    ∀ s : PassState P,
      (runEpochPassState mode model criterion accf optStep
          s bs).losses.sum =
        s.losses.sum + wsum ((passTrace mode model criterion accf
          optStep s.params bs).map fun o => (o.1, o.2.2)) ∧
      (runEpochPassState mode model criterion accf optStep
          s bs).losses.count =
        s.losses.count + wtot ((passTrace mode model criterion accf
          optStep s.params bs).map fun o => (o.1, o.2.2)) ∧
      (runEpochPassState mode model criterion accf optStep
          s bs).top1.sum =
        s.top1.sum + wsum ((passTrace mode model criterion accf
          optStep s.params bs).map fun o => (o.2.1, o.2.2)) ∧
      (runEpochPassState mode model criterion accf optStep
          s bs).top1.count =
        s.top1.count + wtot ((passTrace mode model criterion accf
          optStep s.params bs).map fun o => (o.2.1, o.2.2)) := by
  induction bs with
  | nil => intro s; simp [runEpochPassState, passTrace, wsum, wtot]
  | cons b bs ih =>
    intro s
    obtain ⟨h1, h2, h3, h4⟩ :=
      ih (processBatch mode model criterion accf optStep s b)
    rw [runEpochPassState]
    refine ⟨?_, ?_, ?_, ?_⟩ <;>
      simp [processBatch, AverageMeter.update, passTrace, wsum, wtot]
        at h1 h2 h3 h4 ⊢ <;>
      simp [h1, h2, h3, h4] <;> ring

/-- C5: an epoch pass in Test mode never mutates the model
parameters — whatever the optimizer's step function would do, the
parameters after the pass equal those before it — and therefore
running the evaluate pass a second time on the resulting model
returns identical metrics. -/
theorem c5_test_mode_preserves_params {P : Type} (model : P → ℚ → ℚ)
    (criterion : ℚ → ℚ → ℚ) (accf : ℚ → ℚ → ℚ × ℚ)
    (optStep : P → Batch → P) (p : P) (bs : List Batch) :
    (runEpochPassState Mode.Test model criterion accf optStep
        (initPassState p) bs).params = p ∧
    run_epoch_pass Mode.Test model criterion accf optStep
        (run_epoch_pass Mode.Test model criterion accf optStep
          p bs).2 bs =
      run_epoch_pass Mode.Test model criterion accf optStep p bs := by
  have h1 : (runEpochPassState Mode.Test model criterion accf optStep
      (initPassState p) bs).params = p := by
    rw [runEpochPassState_test_params]
    simp [initPassState]
  refine ⟨h1, ?_⟩
  have h2 : (run_epoch_pass Mode.Test model criterion accf optStep
      p bs).2 = p := h1
  rw [h2]

/-- C4 counterexample: two one-batch datasets with identical loss and
top-1 accuracy but different top-5 accuracy give identical
`run_epoch_pass` results, so the returned value cannot contain the
top-5 (nor batch-time, nor data-time) average — the source returns
only `(losses.avg, top1.avg)`, not a five-field `EpochMetrics`. -/
theorem c4_counterexample_return_lacks_top5 :
    run_epoch_pass Mode.Test modelEval lossOut accOutTarget stepNone 0
        [batchA] =
      run_epoch_pass Mode.Test modelEval lossOut accOutTarget stepNone
        0 [batchB] ∧
    (runEpochPassState Mode.Test modelEval lossOut accOutTarget
        stepNone (initPassState 0) [batchA]).top5.avg ≠
      (runEpochPassState Mode.Test modelEval lossOut accOutTarget
        stepNone (initPassState 0) [batchB]).top5.avg := by
  norm_num [run_epoch_pass, runEpochPassState, processBatch,
    initPassState, AverageMeter.init, AverageMeter.update,
    AverageMeter.avg, modelEval, lossOut, accOutTarget, stepNone,
    batchA, batchB]

/-- C4 amended: for every non-empty dataset iterator,
`run_epoch_pass` returns the pair of the weighted averages of the
per-batch loss and top-1 accuracy (weighted by batch example count);
the top-5, batch-time, and data-time running averages are accumulated
during the pass but are not part of the return value. -/
theorem c4_amended_returns_loss_top1_averages {P : Type} (mode : Mode)
    (model : P → ℚ → ℚ) (criterion : ℚ → ℚ → ℚ)
    (accf : ℚ → ℚ → ℚ × ℚ) (optStep : P → Batch → P) (p : P)
    (bs : List Batch) (h : bs ≠ []) :
    (run_epoch_pass mode model criterion accf optStep p bs).1 =
      (wavg ((passTrace mode model criterion accf optStep p bs).map
          fun o => (o.1, o.2.2)),
       wavg ((passTrace mode model criterion accf optStep p bs).map
          fun o => (o.2.1, o.2.2))) := by
  obtain ⟨h1, h2, h3, h4⟩ := runEpochPassState_sums mode model
    criterion accf optStep bs (initPassState p)
  simp [initPassState, AverageMeter.init] at h1 h2 h3 h4
  simp [run_epoch_pass, AverageMeter.avg, wavg, initPassState,
    AverageMeter.init, h1, h2, h3, h4]

/-- Witness for the amended C4 on a concrete one-batch dataset. -/
theorem c4_amended_witness :
    (run_epoch_pass Mode.Test modelEval lossOut accOutTarget stepNone
        0 [batchA]).1 =
      (wavg ((passTrace Mode.Test modelEval lossOut accOutTarget
          stepNone 0 [batchA]).map fun o => (o.1, o.2.2)),
       wavg ((passTrace Mode.Test modelEval lossOut accOutTarget
          stepNone 0 [batchA]).map fun o => (o.2.1, o.2.2))) :=
  c4_amended_returns_loss_top1_averages Mode.Test modelEval lossOut
    accOutTarget stepNone 0 [batchA] (by decide)

end Cifar
